import Mathlib

/-!
Verification development for the lookecommerce data-quality pipeline.

The pipeline's core (scripts/etl/data_cleaning.py and
tests/validators/events/big_int_validator.py) is shallowly embedded here:
pandas DataFrames become lists of per-table row structures over a scalar
`Value` type, and each cleaning / referential-integrity / validation step is
translated statement by statement.  Modelling conventions, stated once:

* A cell is a `Value`: null (pandas NaN / None), a string, an integer, a
  rational (pandas float, idealised as an exact rational), or a timestamp
  (an integer time value; `pd.Timestamp` ordering is the integer order).
* `pd.to_numeric(..., errors='coerce')` is `toNumeric`; the string parser
  `strToNum` accepts an optional sign, digits, and an optional fractional
  part (a strict subset of the pandas parser; surrounding whitespace is
  ignored as pandas does).  Numeric results that the program would hold as
  float64 are normalised by `float64OfRat`: IEEE float64 has no non-integral
  values of magnitude 2^53 or more, so such idealised rationals are rounded
  to an integral value, keeping the model's float domain inside what the
  program can actually represent.
* `pd.to_datetime(..., errors='coerce')` is `to_datetime`; the string date
  parser handles ISO `YYYY-MM-DD`, a strict subset of pandas.  Unparseable
  input coerces to null exactly as in the source.
* `.astype('Int64')` after `to_numeric` is `toInt64`; on a non-integral
  float the real call raises (`cannot safely cast`), which this pure model
  maps to null — no theorem below depends on that branch.
* `df.where(pd.notna(df), None)` rewrites NaN to None; the model does not
  distinguish the two nulls, so that statement is the identity and is shown
  as a comment where it occurs in the source.
* Python string operations (`str.strip`, `str.title`) are modelled on the
  ASCII fragment, matching Lean's `Char.toUpper/toLower`.
-/

/-- A scalar cell of a table: pandas NaN/None, a string, an int64, a float
(idealised as an exact rational) or a timestamp. -/
inductive Value where
  | null
  | str (s : String)
  | int (n : ℤ)
  | rat (q : ℚ)
  | time (t : ℤ)
deriving DecidableEq

/-- `pd.isna` on one cell. -/
def isna : Value → Bool
  | Value.null => true
  | _ => false

/-- `Series.fillna(d)` on one cell. -/
def fillna (d : Value) : Value → Value
  | Value.null => d
  | v => v

/-- Python `str.strip` whitespace set (ASCII fragment). -/
def isSpaceChar (c : Char) : Bool :=
  c == ' ' || c == '\t' || c == '\n' || c == '\x0d' || c == '\x0b' || c == '\x0c'

/-- Python `str.strip` on a character list: drop leading and trailing
whitespace. -/
def stripList (l : List Char) : List Char :=
  ((l.dropWhile isSpaceChar).reverse.dropWhile isSpaceChar).reverse

/-- Python `str.strip`. -/
def pyStrip (s : String) : String :=
  String.mk (stripList s.data)

/-- One step of Python `str.title`: the boolean is whether the previous
character was cased (a letter).  The first letter of each letter-run is
uppercased, the rest lowercased. -/
def titleAux : Bool → List Char → List Char
  | _, [] => []
  | prev, c :: cs =>
    if c.isAlpha then (if prev then c.toLower else c.toUpper) :: titleAux true cs
    else c :: titleAux false cs

/-- Python `str.title` (ASCII fragment). -/
def pyTitle (s : String) : String :=
  String.mk (titleAux false s.data)

/-- pandas `Series.str.strip()` on one cell: strings are stripped, any
non-string (including numbers) becomes NaN — the `.str` accessor yields NaN
for non-string elements of an object column. -/
def strStrip : Value → Value
  | Value.str s => Value.str (pyStrip s)
  | _ => Value.null

/-- pandas `Series.str.strip().str.title()` on one cell. -/
def strStripTitle : Value → Value
  | Value.str s => Value.str (pyTitle (pyStrip s))
  | _ => Value.null

/-- pandas `Series.str.title()` alone on one cell. -/
def strTitle : Value → Value
  | Value.str s => Value.str (pyTitle s)
  | _ => Value.null

/-- Folding step for `df.replace('  +', '', regex=True)`: accumulate the
output and the length of the pending space run. -/
def collapseSpacesOut (n : ℕ) : List Char :=
  if n = 1 then [' '] else []

/-- See `collapseSpacesOut`. -/
def collapseFold (acc : List Char × ℕ) (c : Char) : List Char × ℕ :=
  if c == ' ' then (acc.1, acc.2 + 1)
  else (acc.1 ++ collapseSpacesOut acc.2 ++ [c], 0)

/-- `re.sub('  +', '', s)`: every maximal run of two or more spaces is
deleted; isolated single spaces survive. -/
def collapseStr (s : String) : String :=
  let r := s.data.foldl collapseFold ([], 0)
  String.mk (r.1 ++ collapseSpacesOut r.2)

/-- `df.replace('  +', '', regex=True)` on one cell: the regex replacement
only applies to string cells. -/
def collapseVal : Value → Value
  | Value.str s => Value.str (collapseStr s)
  | v => v

/-- Parse a non-empty all-digit character list as a natural number. -/
def parseNatDigits (cs : List Char) : Option ℕ :=
  if cs ≠ [] ∧ cs.all Char.isDigit then
    some (cs.foldl (fun a c => a * 10 + (c.toNat - 48)) 0)
  else none

/-- The result of `pd.to_numeric` on one parseable cell: pandas keeps
integers as int64 and fractional input as float64. -/
inductive NumVal where
  | int (n : ℤ)
  | flt (q : ℚ)
deriving DecidableEq

/-- Numeric magnitude of a `NumVal`. -/
def NumVal.toQ : NumVal → ℚ
  | NumVal.int n => (n : ℚ)
  | NumVal.flt q => q

/-- Repack a `NumVal` as a cell. -/
def NumVal.toValue : NumVal → Value
  | NumVal.int n => Value.int n
  | NumVal.flt q => Value.rat q

/-- Normalisation of an idealised rational to what an IEEE float64 can
hold: any double with a fractional part has magnitude below 2^52 (above
that the spacing between consecutive doubles is at least 1), so a
non-integral value of magnitude at least 2^53 is rounded to an integral
value.  (Which integer the true float64 rounding yields depends on the
float spacing near the value; no theorem here relies on it.)  Values of
magnitude below 2^53 — in particular every fractional float64 — are kept
exactly. -/
def float64OfRat (q : ℚ) : ℚ :=
  if q.den = 1 then q
  else if |q| < 2 ^ 53 then q
  else ((round q : ℤ) : ℚ)

/-- Numeric-string parser behind `pd.to_numeric`: optional sign, digits,
optional fractional part; surrounding whitespace ignored.  (Strict subset
of the pandas parser: exponents and forms like `1.` are not modelled.)
Fractional results, held as float64 by the program, are normalised by
`float64OfRat`. -/
def strToNum (s : String) : Option NumVal :=
  let cs := stripList s.data
  let signed : Bool × List Char :=
    match cs with
    | '-' :: r => (true, r)
    | '+' :: r => (false, r)
    | r => (false, r)
  let neg := signed.1
  let body := signed.2
  let ip := body.takeWhile (fun c => !(c == '.'))
  let rest := body.dropWhile (fun c => !(c == '.'))
  match rest with
  | [] => (parseNatDigits ip).map (fun n => NumVal.int (if neg then -(n : ℤ) else (n : ℤ)))
  | _ :: fp =>
    if fp.contains '.' then none
    else
      match parseNatDigits ip, parseNatDigits fp with
      | some n, some f =>
        let q : ℚ := (n : ℚ) + (f : ℚ) / ((10 : ℚ) ^ fp.length)
        some (NumVal.flt (float64OfRat (if neg then -q else q)))
      | _, _ => none

/-- `pd.to_numeric(cell, errors='coerce')`.  Datetimes coerce to their
integer (nanosecond) value.  A float cell stands for a float64 of the
program, so its idealised rational is normalised by `float64OfRat`. -/
def toNumeric : Value → Option NumVal
  | Value.null => none
  | Value.int n => some (NumVal.int n)
  | Value.rat q => some (NumVal.flt (float64OfRat q))
  | Value.time t => some (NumVal.int t)
  | Value.str s => strToNum s

/-- `pd.to_numeric(col, errors='coerce').astype('Int64')` on one cell.
Unparseable content becomes null.  (On a non-integral float the real
`astype('Int64')` raises; that branch is modelled as null and is not relied
on by any theorem.) -/
def toInt64 (v : Value) : Value :=
  match toNumeric v with
  | some (NumVal.int n) => Value.int n
  | some (NumVal.flt q) => if q.den = 1 then Value.int q.num else Value.null
  | none => Value.null

/-- ISO `YYYY-MM-DD` date parser behind `pd.to_datetime` (strict subset of
the pandas parser); the produced time value orders chronologically. -/
def dateParse (s : String) : Option ℤ :=
  match s.splitOn ("-") with
  | [y, m, d] =>
    match parseNatDigits y.data, parseNatDigits m.data, parseNatDigits d.data with
    | some yn, some mn, some dn =>
      if y.length = 4 ∧ 1 ≤ mn ∧ mn ≤ 12 ∧ 1 ≤ dn ∧ dn ≤ 31 then
        some ((yn : ℤ) * 10000 + (mn : ℤ) * 100 + (dn : ℤ))
      else none
    | _, _, _ => none
  | _ => none

/-- `pd.to_datetime(cell, errors='coerce')`: timestamps pass through,
integers are epoch offsets, parseable strings become timestamps, anything
else coerces to NaT (null).  A fractional float epoch is modelled as null. -/
def to_datetime : Value → Value
  | Value.time t => Value.time t
  | Value.int n => Value.time n
  | Value.rat q => if q.den = 1 then Value.time q.num else Value.null
  | Value.str s =>
    match dateParse s with
    | some t => Value.time t
    | none => Value.null
  | Value.null => Value.null

/-- Elementwise pandas `>=` between two cells: numeric on numbers,
lexicographic on two strings, chronological on two timestamps; any
comparison involving null is False, and mixed-type comparisons (which raise
in pandas) are modelled as False. -/
def numGE : Value → Value → Bool
  | Value.int a, Value.int b => decide (b ≤ a)
  | Value.int a, Value.rat q => decide (q ≤ (a : ℚ))
  | Value.rat q, Value.int b => decide ((b : ℚ) ≤ q)
  | Value.rat p, Value.rat q => decide (q ≤ p)
  | Value.str s, Value.str t => decide (t ≤ s)
  | Value.time a, Value.time b => decide (b ≤ a)
  | _, _ => false

/-- Characters allowed in the local part of `EMAIL_RE`
(`[A-Za-z0-9._%+-]`). -/
def localChar (c : Char) : Bool :=
  c.isAlpha || c.isDigit || c == '.' || c == '_' || c == '%' || c == '+' || c == '-'

/-- Characters allowed in the domain body of `EMAIL_RE` (`[A-Za-z0-9.-]`). -/
def domainChar (c : Char) : Bool :=
  c.isAlpha || c.isDigit || c == '.' || c == '-'

/-- Split a list at the first occurrence of `c` (the separator removed). -/
def splitFirstAt (c : Char) : List Char → Option (List Char × List Char)
  | [] => none
  | x :: xs =>
    if x = c then some ([], xs)
    else
      match splitFirstAt c xs with
      | none => none
      | some p => some (x :: p.1, p.2)

/-- Split a list at the last occurrence of `c` (the separator removed). -/
def splitLastAt (c : Char) (l : List Char) : Option (List Char × List Char) :=
  match splitFirstAt c l.reverse with
  | none => none
  | some p => some (p.2.reverse, p.1.reverse)

/-- `EMAIL_RE = ^[A-Za-z0-9._%+-]+@[A-Za-z0-9.-]+\.[A-Za-z]{2,}$` as a
decision procedure: a full match is a non-empty local part, `@`, a
non-empty domain body, `.`, and an alphabetic TLD of length at least two.
Since the TLD charset excludes dots, the pattern's final dot is the last
dot of the string, so the decomposition at the last dot is exact. -/
def emailOk (s : String) : Bool :=
  match splitFirstAt '@' s.data with
  | none => false
  | some p =>
    (!p.1.isEmpty) && p.1.all localChar &&
    (match splitLastAt '.' p.2 with
     | none => false
     | some q =>
       (!q.1.isEmpty) && q.1.all domainChar &&
       decide (2 ≤ q.2.length) && q.2.all Char.isAlpha)

/-- The filter `lambda x: bool(EMAIL_RE.match(str(x))) if pd.notna(x) else
False`: null fails; a non-string cell is rendered by `str`, whose output
cannot contain `@` for numbers or timestamps, so only string cells can
pass. -/
def emailFilter : Value → Bool
  | Value.str s => emailOk s
  | _ => false

/-- `df.drop_duplicates(subset=[key], keep='first')` worker: `seen` is the
set of key values already kept.  pandas treats two NaN key cells as
duplicates of each other, which the model inherits from `Value` equality. -/
def dedupAux {α κ : Type} [DecidableEq κ] (key : α → κ) : List α → List κ → List α
  | [], _ => []
  | x :: xs, seen =>
    if key x ∈ seen then dedupAux key xs seen
    else x :: dedupAux key xs (key x :: seen)

/-- `df.drop_duplicates(subset=[key], keep='first')`. -/
def drop_duplicates {α κ : Type} [DecidableEq κ] (key : α → κ) (l : List α) : List α :=
  dedupAux key l []

/-! ### Table row types (the columns the cleaning code touches) -/

/-- A row of `users.csv`. -/
structure UserRow where
  id : Value
  email : Value
  age : Value
  city : Value
  first_name : Value
  last_name : Value
  country : Value
  created_at : Value
deriving DecidableEq

/-- A row of `products.csv`. -/
structure ProductRow where
  id : Value
  cost : Value
  retail_price : Value
  name : Value
  brand : Value
  category : Value
  department : Value
deriving DecidableEq

/-- A row of `orders.csv`. -/
structure OrderRow where
  order_id : Value
  user_id : Value
  status : Value
  created_at : Value
  shipped_at : Value
  delivered_at : Value
  returned_at : Value
deriving DecidableEq

/-- A row of `order_items.csv`. -/
structure OrderItemRow where
  id : Value
  order_id : Value
  product_id : Value
  sale_price : Value
  status : Value
  created_at : Value
  shipped_at : Value
  delivered_at : Value
  returned_at : Value
deriving DecidableEq

/-- A row of `inventory_items.csv`. -/
structure InventoryItemRow where
  id : Value
  product_id : Value
  cost : Value
  product_retail_price : Value
  created_at : Value
  sold_at : Value
  product_name : Value
  product_brand : Value
deriving DecidableEq

/-- A row of `events.csv`. -/
structure EventRow where
  id : Value
  user_id : Value
  sequence_number : Value
  created_at : Value
  city : Value
deriving DecidableEq

/-- A row of `distribution_centers.csv`. -/
structure DistributionCenterRow where
  id : Value
  name : Value
deriving DecidableEq

/-! ### Per-table cleaning functions (data_cleaning.py) -/

/-- `clean_users` (data_cleaning.py lines 15-69), statement by statement. -/
def clean_users (df : List UserRow) : List UserRow :=
  -- df = df.drop_duplicates(subset=['email'], keep='first')
  let df := drop_duplicates (fun r => r.email) df
  -- df = df[df['age'] >= 18]
  let df := df.filter (fun r => numGE r.age (Value.int 18))
  -- df['city'] = df['city'].fillna('Unknown')
  let df := df.map (fun r => { r with city := fillna (Value.str ("Unknown")) r.city })
  -- df['first_name'/'last_name'/'country'] strip+title; df['city'] strip
  let df := df.map (fun r =>
    { r with
      first_name := strStripTitle r.first_name
      last_name := strStripTitle r.last_name
      country := strStripTitle r.country
      city := strStrip r.city })
  -- df = df[df['email'].apply(lambda x: ...)]
  let df := df.filter (fun r => emailFilter r.email)
  -- df['created_at'] = pd.to_datetime(df['created_at'], errors='coerce')
  let df := df.map (fun r => { r with created_at := to_datetime r.created_at })
  -- df = df[df['created_at'].notna()]
  let df := df.filter (fun r => !isna r.created_at)
  -- df['id'] = pd.to_numeric(df['id'], errors='coerce').astype('Int64')
  let df := df.map (fun r => { r with id := toInt64 r.id })
  -- df = df.where(pd.notna(df), None)  (identity in this model)
  df

/-- `clean_products` (data_cleaning.py lines 72-116). -/
def clean_products (df : List ProductRow) : List ProductRow :=
  let df := drop_duplicates (fun r => r.id) df
  -- df = df[df['cost'] >= 0]
  let df := df.filter (fun r => numGE r.cost (Value.int 0))
  -- df = df[df['retail_price'] >= df['cost']]
  let df := df.filter (fun r => numGE r.retail_price r.cost)
  -- fillna: name 'Unknown Product', brand 'Generic', category 'Uncategorized'
  let df := df.map (fun r =>
    { r with
      name := fillna (Value.str ("Unknown Product")) r.name
      brand := fillna (Value.str ("Generic")) r.brand
      category := fillna (Value.str ("Uncategorized")) r.category })
  -- strip name/brand/department, strip+title category
  let df := df.map (fun r =>
    { r with
      name := strStrip r.name
      brand := strStrip r.brand
      category := strStripTitle r.category
      department := strStrip r.department })
  -- df['id'] = to_numeric(...).astype('Int64')
  let df := df.map (fun r => { r with id := toInt64 r.id })
  -- df = df.where(pd.notna(df), None)  (identity in this model)
  df

/-- The `valid_statuses` list of `clean_orders`. -/
def validOrderStatuses : List Value :=
  [Value.str ("Completed"), Value.str ("Cancelled"), Value.str ("Processing"),
   Value.str ("Shipped"), Value.str ("Returned")]

/-- `df['status'].isin(valid_statuses)` for one orders row. -/
def orderStatusOk (r : OrderRow) : Bool :=
  validOrderStatuses.contains r.status

/-- The first date filter of `clean_orders` (lines 152-156):
keep when shipped_at is null, or created_at is null, or shipped_at >=
created_at. -/
def shippedCreatedOk (r : OrderRow) : Bool :=
  isna r.shipped_at || isna r.created_at || numGE r.shipped_at r.created_at

/-- The second date filter of `clean_orders` (lines 158-162):
keep when delivered_at is null, or shipped_at is null, or delivered_at >=
shipped_at. -/
def deliveredShippedOk (r : OrderRow) : Bool :=
  isna r.delivered_at || isna r.shipped_at || numGE r.delivered_at r.shipped_at

/-- `clean_orders` (data_cleaning.py lines 119-172). -/
def clean_orders (df : List OrderRow) : List OrderRow :=
  let df := drop_duplicates (fun r => r.order_id) df
  -- timestamp conversion for created/shipped/delivered/returned
  let df := df.map (fun r =>
    { r with
      created_at := to_datetime r.created_at
      shipped_at := to_datetime r.shipped_at
      delivered_at := to_datetime r.delivered_at
      returned_at := to_datetime r.returned_at })
  -- df = df[df['status'].isin(valid_statuses)]
  let df := df.filter orderStatusOk
  let df := df.filter shippedCreatedOk
  let df := df.filter deliveredShippedOk
  -- order_id / user_id to Int64
  df.map (fun r => { r with order_id := toInt64 r.order_id, user_id := toInt64 r.user_id })

/-- The `valid_statuses` list of `clean_order_items` (note `Complete`, not
`Completed`). -/
def validOrderItemStatuses : List Value :=
  [Value.str ("Complete"), Value.str ("Cancelled"), Value.str ("Processing"),
   Value.str ("Shipped"), Value.str ("Returned")]

/-- `clean_order_items` (data_cleaning.py lines 175-222). -/
def clean_order_items (df : List OrderItemRow) : List OrderItemRow :=
  let df := drop_duplicates (fun r => r.id) df
  -- df = df[df['sale_price'] >= 0]
  let df := df.filter (fun r => numGE r.sale_price (Value.int 0))
  let df := df.map (fun r =>
    { r with
      created_at := to_datetime r.created_at
      shipped_at := to_datetime r.shipped_at
      delivered_at := to_datetime r.delivered_at
      returned_at := to_datetime r.returned_at })
  let df := df.filter (fun r => validOrderItemStatuses.contains r.status)
  let df := df.map (fun r =>
    { r with
      id := toInt64 r.id
      order_id := toInt64 r.order_id
      product_id := toInt64 r.product_id })
  -- df = df.where(pd.notna(df), None)  (identity in this model)
  df

/-- `clean_inventory_items` (data_cleaning.py lines 225-276). -/
def clean_inventory_items (df : List InventoryItemRow) : List InventoryItemRow :=
  let df := drop_duplicates (fun r => r.id) df
  let df := df.filter (fun r => numGE r.cost (Value.int 0))
  let df := df.filter (fun r => numGE r.product_retail_price (Value.int 0))
  let df := df.map (fun r =>
    { r with
      created_at := to_datetime r.created_at
      sold_at := to_datetime r.sold_at })
  -- df = df[(df['sold_at'].isna()) | (df['sold_at'] >= df['created_at'])]
  let df := df.filter (fun r => isna r.sold_at || numGE r.sold_at r.created_at)
  let df := df.map (fun r =>
    { r with
      product_name := fillna (Value.str ("Unknown Product")) r.product_name
      product_brand := fillna (Value.str ("Generic")) r.product_brand })
  let df := df.map (fun r => { r with id := toInt64 r.id, product_id := toInt64 r.product_id })
  -- df = df.where(pd.notna(df), None)  (identity in this model)
  df

/-- `clean_events` (data_cleaning.py lines 279-325). -/
def clean_events (df : List EventRow) : List EventRow :=
  let df := drop_duplicates (fun r => r.id) df
  let df := df.map (fun r => { r with created_at := to_datetime r.created_at })
  -- df = df[df['created_at'].notna()]
  let df := df.filter (fun r => !isna r.created_at)
  let df := df.map (fun r => { r with city := fillna (Value.str ("Unknown")) r.city })
  let df := df.map (fun r =>
    { r with
      id := toInt64 r.id
      user_id := toInt64 r.user_id
      sequence_number := toInt64 r.sequence_number })
  -- df = df.replace('  +', '', regex=True) over every cell
  let df := df.map (fun r =>
    { r with
      id := collapseVal r.id
      user_id := collapseVal r.user_id
      sequence_number := collapseVal r.sequence_number
      created_at := collapseVal r.created_at
      city := collapseVal r.city })
  -- df = df.where(pd.notna(df), None)  (identity in this model)
  df

/-- `clean_distribution_centers` (data_cleaning.py lines 328-357). -/
def clean_distribution_centers (df : List DistributionCenterRow) : List DistributionCenterRow :=
  let df := drop_duplicates (fun r => r.id) df
  -- df['name'] = df['name'].str.strip()
  let df := df.map (fun r => { r with name := strStrip r.name })
  let df := df.map (fun r => { r with id := toInt64 r.id })
  -- df = df.where(pd.notna(df), None)  (identity in this model)
  df

/-! ### Referential-integrity stage of `main` (data_cleaning.py lines 434-515)

The cleaned tables are written to `data/processed/` and read back; a table's
file exists for this run exactly when its raw source existed (the model does
not represent stale files from earlier runs, nor the CSV round-trip, which
re-reads exactly the cells that were written).  `Option` is `some cleaned
table` when the file exists. -/

/-- Violation record of `orphan_orders.csv`: `["order_id", "user_id"]`. -/
structure OrphanOrder where
  order_id : Value
  user_id : Value
deriving DecidableEq

/-- Violation record of `oi_missing_orders.csv` / `oi_missing_products.csv`:
`["id", "order_id", "product_id"]`. -/
structure OrderItemViolation where
  id : Value
  order_id : Value
  product_id : Value
deriving DecidableEq

/-- Violation record of `orphan_events.csv`: `["id", "user_id", "created_at"]`. -/
structure OrphanEvent where
  id : Value
  user_id : Value
  created_at : Value
deriving DecidableEq

/-- `orders_df["user_id"].isin(users_df["id"])` for one orders row.
pandas `isin` matches NaN against NaN, which `Value` equality inherits. -/
def orderUserOk (users : List UserRow) (r : OrderRow) : Bool :=
  (users.map (fun u => u.id)).contains r.user_id

/-- The ORDERS ↔ USERS block (lines 448-455): returns the retained orders
and the `orphan_orders` records. -/
def resolveOrders (users : List UserRow) (orders : List OrderRow) :
    List OrderRow × List OrphanOrder :=
  let orphans := (orders.filter (fun r => !orderUserOk users r)).map
    (fun r => { order_id := r.order_id, user_id := r.user_id : OrphanOrder })
  (orders.filter (fun r => orderUserOk users r), orphans)

/-- `oitems_df["order_id"].isin(orders_df["order_id"])` for one row. -/
def oiOrderOk (orders : List OrderRow) (r : OrderItemRow) : Bool :=
  (orders.map (fun o => o.order_id)).contains r.order_id

/-- `oitems_df["product_id"].isin(prods_df["id"])` for one row. -/
def oiProductOk (products : List ProductRow) (r : OrderItemRow) : Bool :=
  (products.map (fun p => p.id)).contains r.product_id

/-- Projection of an order-items row to its violation record. -/
def oiViolation (r : OrderItemRow) : OrderItemViolation :=
  { id := r.id, order_id := r.order_id, product_id := r.product_id }

/-- The ORDER_ITEMS ↔ ORDERS & PRODUCTS block (lines 471-489): returns the
retained rows (those passing both checks), the `oi_missing_orders` records
and the `oi_missing_products` records.  A row failing both checks is
recorded in both files. -/
def resolveOrderItems (orders : List OrderRow) (products : List ProductRow)
    (oitems : List OrderItemRow) :
    List OrderItemRow × List OrderItemViolation × List OrderItemViolation :=
  let missingOrders := (oitems.filter (fun r => !oiOrderOk orders r)).map oiViolation
  let missingProducts := (oitems.filter (fun r => !oiProductOk products r)).map oiViolation
  let retained := oitems.filter (fun r => oiOrderOk orders r && oiProductOk products r)
  (retained, missingOrders, missingProducts)

/-- `set(users_df['id'].dropna().unique())`, as the list of non-null id
cells (list membership makes `unique` immaterial). -/
def validUserIds (users : List UserRow) : List Value :=
  (users.map (fun u => u.id)).filter (fun v => !isna v)

/-- `events_df["user_id"].isna() | events_df["user_id"].isin(valid_user_ids)`
for one events row. -/
def eventUserOk (users : List UserRow) (r : EventRow) : Bool :=
  isna r.user_id || (validUserIds users).contains r.user_id

/-- The EVENTS ↔ USERS block (lines 499-511): returns the retained events
and the `orphan_events` records. -/
def resolveEvents (users : List UserRow) (events : List EventRow) :
    List EventRow × List OrphanEvent :=
  let orphans := (events.filter (fun r => !eventUserOk users r)).map
    (fun r => { id := r.id, user_id := r.user_id, created_at := r.created_at : OrphanEvent })
  (events.filter (fun r => eventUserOk users r), orphans)

/-- The five cleaned tables as they stand when the RI stage starts; `none`
means the table's file is absent (its raw source was missing). -/
structure RIInput where
  users : Option (List UserRow)
  orders : Option (List OrderRow)
  products : Option (List ProductRow)
  order_items : Option (List OrderItemRow)
  events : Option (List EventRow)

/-- Result of the RI stage: each table's final file content, the four
violation files, and which of the three check blocks actually ran. -/
structure RIOutput where
  orders : Option (List OrderRow)
  order_items : Option (List OrderItemRow)
  events : Option (List EventRow)
  orphan_orders : List OrphanOrder
  oi_missing_orders : List OrderItemViolation
  oi_missing_products : List OrderItemViolation
  orphan_events : List OrphanEvent
  ordersChecked : Bool
  orderItemsChecked : Bool
  eventsChecked : Bool

/-- The RI stage of `main` (lines 443-515), mirroring the source's control
flow.  The orders block runs when users and orders files exist; the
order-items block when orders, products and order_items files exist; and —
as in the source, where the `if` at line 495 is nested inside the
order-items block — the events block runs only when the order-items block
ran AND users and events files exist. -/
def riStage (inp : RIInput) : RIOutput :=
  -- if all(os.path.exists(p) for p in [users_path, orders_path]):
  let step1 : Option (List OrderRow) × List OrphanOrder × Bool :=
    match inp.users, inp.orders with
    | some us, some os =>
      let r := resolveOrders us os
      (some r.1, r.2, true)
    | _, _ => (inp.orders, [], false)
  let orders1 := step1.1
  let orphanOrders := step1.2.1
  let ordersChecked := step1.2.2
  -- if all(os.path.exists(p) for p in [orders_path, prods_path, oitems_path]):
  match orders1, inp.products, inp.order_items with
  | some os, some ps, some its =>
    let r2 := resolveOrderItems os ps its
    -- nested: if all(os.path.exists(p) for p in [users_path, events_path]):
    (match inp.users, inp.events with
     | some us, some es =>
       let r3 := resolveEvents us es
       { orders := some os, order_items := some r2.1, events := some r3.1,
         orphan_orders := orphanOrders, oi_missing_orders := r2.2.1,
         oi_missing_products := r2.2.2, orphan_events := r3.2,
         ordersChecked := ordersChecked, orderItemsChecked := true,
         eventsChecked := true }
     | _, _ =>
       { orders := some os, order_items := some r2.1, events := inp.events,
         orphan_orders := orphanOrders, oi_missing_orders := r2.2.1,
         oi_missing_products := r2.2.2, orphan_events := [],
         ordersChecked := ordersChecked, orderItemsChecked := true,
         eventsChecked := false })
  | _, _, _ =>
    { orders := orders1, order_items := inp.order_items, events := inp.events,
      orphan_orders := orphanOrders, oi_missing_orders := [],
      oi_missing_products := [], orphan_events := [],
      ordersChecked := ordersChecked, orderItemsChecked := false,
      eventsChecked := false }

/-! ### BigintValidator (tests/validators/events/big_int_validator.py) -/

/-- `BIGINT_MIN` (line 14). -/
def BIGINT_MIN : ℤ := -9223372036854775808

/-- `BIGINT_MAX` (line 15). -/
def BIGINT_MAX : ℤ := 9223372036854775807

/-- The validator's `error_type` tags. -/
inductive ErrType where
  | nonNumeric
  | underflow
  | overflow
  | precisionLoss
deriving DecidableEq

/-- One violation dict appended by `_validate_column` (the `message` field,
a formatting of the others, is omitted). -/
structure RangeViolation where
  row : ℕ
  column : String
  value : Value
  error_type : ErrType
deriving DecidableEq

/-- Body of the `for idx, value in enumerate(numeric_series)` loop of
`_validate_column` (lines 91-131) for one cell: `orig` is the original cell,
`idx` the 0-based position in the column.  NaN after coercion reports
NON_NUMERIC when the original was a non-null, non-blank string; otherwise
the range comparison (`if < BIGINT_MIN / elif > BIGINT_MAX`) appends at most
one violation, and the separate `if isinstance(value, float) and value !=
int(value)` check appends a PRECISION_LOSS violation independently.  `numViolations` is the part of
the body applied to a successfully coerced value. -/
def numViolations (col : String) (idx : ℕ) (nv : NumVal) : List RangeViolation :=
  let rangeViols : List RangeViolation :=
    if nv.toQ < (BIGINT_MIN : ℚ) then
      [{ row := idx + 2, column := col, value := nv.toValue, error_type := ErrType.underflow }]
    else if (BIGINT_MAX : ℚ) < nv.toQ then
      [{ row := idx + 2, column := col, value := nv.toValue, error_type := ErrType.overflow }]
    else []
  let fracViols : List RangeViolation :=
    match nv with
    | NumVal.flt q =>
      if q.den ≠ 1 then
        [{ row := idx + 2, column := col, value := nv.toValue, error_type := ErrType.precisionLoss }]
      else []
    | _ => []
  rangeViols ++ fracViols

/-- See `numViolations` (the coerced-value checks) and the NON_NUMERIC
branch below, together the loop body of `_validate_column`. -/
def cellViolations (col : String) (idx : ℕ) (orig : Value) : List RangeViolation :=
  match toNumeric orig with
  | none =>
    -- if pd.notna(original_value) and str(original_value).strip():
    match orig with
    | Value.str s =>
      if pyStrip s == "" then []
      else [{ row := idx + 2, column := col, value := Value.str s, error_type := ErrType.nonNumeric }]
    | _ => []   -- only null reaches this branch
  | some nv => numViolations col idx nv

/-- `_validate_column` over a whole column: cells in file order, `idx`
enumerating from 0 (the CSV header is row 1, so violation rows are
`idx + 2`). -/
def validateColumn (col : String) (cells : List Value) : List RangeViolation :=
  (cells.enum).flatMap (fun p => cellViolations col p.1 p.2)

/-- A CSV read into memory: named columns of cells. -/
def CsvTable := List (String × List Value)

/-- The column loop of `validate` (lines 56-61): columns absent from the
file only print a warning and contribute nothing. -/
def validateTable (cols : List String) (tbl : CsvTable) : List RangeViolation :=
  cols.flatMap (fun c =>
    match tbl.find? (fun p => p.1 == c) with
    | none => []
    | some p => validateColumn c p.2)

/-- How reading `csv_path` went: the file is absent, reading raised, or a
table was produced. -/
inductive ReadResult where
  | missing
  | readError (msg : String)
  | ok (tbl : CsvTable)

/-- The errors `validate` raises. -/
inductive ValidateError where
  | fileNotFound
  | valueError (msg : String)
deriving DecidableEq

/-- `BigintValidator.validate` (lines 35-66) over an explicit read outcome:
a missing file raises FileNotFoundError, a failed read raises ValueError,
otherwise the violations are collected and `(len(violations) == 0,
violations)` is returned. -/
def validate (r : ReadResult) (cols : List String) :
    Except ValidateError (Bool × List RangeViolation) :=
  match r with
  | ReadResult.missing => Except.error ValidateError.fileNotFound
  | ReadResult.readError m => Except.error (ValidateError.valueError ("Failed to read CSV: " ++ m))
  | ReadResult.ok tbl =>
    let vs := validateTable cols tbl
    Except.ok (vs.isEmpty, vs)

/-! ### Helper lemmas -/

theorem toNat_ofNat_valid {n : ℕ} (h : n.isValidChar) : (Char.ofNat n).toNat = n := by
  simp [Char.ofNat, h]
  rfl

theorem isValidChar_of_le (n : ℕ) (h : n ≤ 0xd7ff) : n.isValidChar := Or.inl (by omega)

theorem toUpper_toUpper (c : Char) : c.toUpper.toUpper = c.toUpper := by
  unfold Char.toUpper
  by_cases h : c.toNat ≥ 97 ∧ c.toNat ≤ 122
  · rw [if_pos h]
    have hv := toNat_ofNat_valid (isValidChar_of_le (c.toNat - 32) (by omega))
    simp only [hv]
    rw [if_neg (by omega)]
  · simp only [if_neg h]

theorem toLower_toLower (c : Char) : c.toLower.toLower = c.toLower := by
  unfold Char.toLower
  by_cases h : c.toNat ≥ 65 ∧ c.toNat ≤ 90
  · rw [if_pos h]
    have hv := toNat_ofNat_valid (isValidChar_of_le (c.toNat + 32) (by omega))
    simp only [hv]
    rw [if_neg (by omega)]
  · simp only [if_neg h]

theorem isUpper_iff_toNat (c : Char) : c.isUpper = true ↔ (65 ≤ c.toNat ∧ c.toNat ≤ 90) := by
  simp [Char.isUpper]
  exact Iff.rfl

theorem isLower_iff_toNat (c : Char) : c.isLower = true ↔ (97 ≤ c.toNat ∧ c.toNat ≤ 122) := by
  simp [Char.isLower]
  exact Iff.rfl

theorem isAlpha_iff_toNat (c : Char) :
    c.isAlpha = true ↔ (65 ≤ c.toNat ∧ c.toNat ≤ 90) ∨ (97 ≤ c.toNat ∧ c.toNat ≤ 122) := by
  simp [Char.isAlpha, isUpper_iff_toNat c, isLower_iff_toNat c]

theorem isAlpha_toUpper (c : Char) (h : c.isAlpha = true) : c.toUpper.isAlpha = true := by
  rw [isAlpha_iff_toNat] at h ⊢
  unfold Char.toUpper
  by_cases hl : c.toNat ≥ 97 ∧ c.toNat ≤ 122
  · rw [if_pos hl, toNat_ofNat_valid (isValidChar_of_le _ (by omega))]
    omega
  · rw [if_neg hl]
    omega

theorem isAlpha_toLower (c : Char) (h : c.isAlpha = true) : c.toLower.isAlpha = true := by
  rw [isAlpha_iff_toNat] at h ⊢
  unfold Char.toLower
  by_cases hl : c.toNat ≥ 65 ∧ c.toNat ≤ 90
  · rw [if_pos hl, toNat_ofNat_valid (isValidChar_of_le _ (by omega))]
    omega
  · rw [if_neg hl]
    omega

theorem titleAux_titleAux (l : List Char) :
    ∀ b : Bool, titleAux b (titleAux b l) = titleAux b l := by
  induction l with
  | nil => intro b; rfl
  | cons c cs ih =>
    intro b
    by_cases ha : c.isAlpha = true
    · cases b with
      | false =>
        simp only [titleAux, ha, if_true, Bool.false_eq_true, if_false,
          isAlpha_toUpper c ha, toUpper_toUpper, ih true]
      | true =>
        simp only [titleAux, ha, if_true, isAlpha_toLower c ha, toLower_toLower, ih true]
    · simp [titleAux, ha, ih false]

theorem pyTitle_pyTitle (s : String) : pyTitle (pyTitle s) = pyTitle s := by
  unfold pyTitle
  exact congrArg String.mk (titleAux_titleAux s.data false)

theorem dropWhile_head_not (p : Char → Bool) (l : List Char) :
    ∀ c ∈ (l.dropWhile p).head?, p c = false := by
  induction l with
  | nil => intro c hc; simp at hc
  | cons x xs ih =>
    intro c hc
    by_cases hx : p x = true
    · rw [List.dropWhile_cons_of_pos hx] at hc
      exact ih c hc
    · rw [List.dropWhile_cons_of_neg hx] at hc
      simp at hc
      rw [hc] at hx
      simpa using hx

theorem dropWhile_of_head_not (p : Char → Bool) (l : List Char)
    (h : ∀ c ∈ l.head?, p c = false) : l.dropWhile p = l := by
  cases l with
  | nil => rfl
  | cons x xs =>
    have hx : p x = false := h x (by simp)
    simp [List.dropWhile_cons, hx]

theorem dropWhile_getLast? (p : Char → Bool) (l : List Char)
    (h : l.dropWhile p ≠ []) : (l.dropWhile p).getLast? = l.getLast? := by
  induction l with
  | nil => simp at h
  | cons x xs ih =>
    by_cases hx : p x = true
    · rw [List.dropWhile_cons_of_pos hx] at h ⊢
      have hxs : xs ≠ [] := by
        intro hnil
        rw [hnil] at h
        simp at h
      rw [ih h]
      cases xs with
      | nil => exact absurd rfl hxs
      | cons y ys => rw [List.getLast?_cons_cons]
    · rw [List.dropWhile_cons_of_neg hx]

theorem stripList_head_not (l : List Char) :
    ∀ c ∈ (stripList l).head?, isSpaceChar c = false := by
  intro c hc
  unfold stripList at hc
  rw [List.head?_reverse] at hc
  by_cases hB : ((l.dropWhile isSpaceChar).reverse.dropWhile isSpaceChar) = []
  · rw [hB] at hc; simp at hc
  · rw [dropWhile_getLast? _ _ hB, List.getLast?_reverse] at hc
    exact dropWhile_head_not isSpaceChar l c hc

theorem stripList_getLast_not (l : List Char) :
    ∀ c ∈ (stripList l).getLast?, isSpaceChar c = false := by
  intro c hc
  unfold stripList at hc
  rw [List.getLast?_reverse] at hc
  exact dropWhile_head_not isSpaceChar (l.dropWhile isSpaceChar).reverse c hc

theorem stripList_of_ends (u : List Char)
    (h1 : ∀ c ∈ u.head?, isSpaceChar c = false)
    (h2 : ∀ c ∈ u.getLast?, isSpaceChar c = false) : stripList u = u := by
  unfold stripList
  rw [dropWhile_of_head_not _ _ h1]
  rw [dropWhile_of_head_not _ _ (by rw [List.head?_reverse]; exact h2)]
  exact List.reverse_reverse u

theorem stripList_stripList (l : List Char) : stripList (stripList l) = stripList l :=
  stripList_of_ends (stripList l) (stripList_head_not l) (stripList_getLast_not l)

theorem pyStrip_pyStrip (s : String) : pyStrip (pyStrip s) = pyStrip s := by
  unfold pyStrip
  exact congrArg String.mk (stripList_stripList s.data)

theorem dedupAux_length_le {α κ : Type} [DecidableEq κ] (key : α → κ) :
    ∀ (l : List α) (seen : List κ), (dedupAux key l seen).length ≤ l.length := by
  intro l
  induction l with
  | nil => intro seen; simp [dedupAux]
  | cons x xs ih =>
    intro seen
    by_cases h : key x ∈ seen
    · rw [dedupAux, if_pos h]
      exact Nat.le_succ_of_le (ih seen)
    · rw [dedupAux, if_neg h]
      simpa using ih (key x :: seen)

theorem drop_duplicates_length_le {α κ : Type} [DecidableEq κ] (key : α → κ) (l : List α) :
    (drop_duplicates key l).length ≤ l.length :=
  dedupAux_length_le key l []

theorem dedupAux_pairwise {α κ : Type} [DecidableEq κ] (key : α → κ) :
    ∀ (l : List α) (seen : List κ),
      (dedupAux key l seen).Pairwise (fun a b => key a ≠ key b) ∧
      ∀ y ∈ dedupAux key l seen, key y ∉ seen := by
  intro l
  induction l with
  | nil => intro seen; simp [dedupAux]
  | cons x xs ih =>
    intro seen
    by_cases h : key x ∈ seen
    · rw [dedupAux, if_pos h]
      exact ih seen
    · rw [dedupAux, if_neg h]
      obtain ⟨hp, hni⟩ := ih (key x :: seen)
      refine ⟨List.Pairwise.cons ?_ hp, ?_⟩
      · intro y hy
        have := hni y hy
        simp at this
        exact fun he => this.1 he.symm
      · intro y hy
        rcases List.mem_cons.mp hy with rfl | hy2
        · exact h
        · have := hni y hy2
          simp at this
          exact this.2

theorem drop_duplicates_pairwise {α κ : Type} [DecidableEq κ] (key : α → κ) (l : List α) :
    (drop_duplicates key l).Pairwise (fun a b => key a ≠ key b) :=
  (dedupAux_pairwise key l []).1

/-! ### Claims -/

/-- Claim C7: RangeValidator classifies the exact signed 64-bit boundary
correctly: the value 9223372036854775807 (BIGINT_MAX) yields no violation,
while 9223372036854775808 (BIGINT_MAX + 1) yields exactly one OVERFLOW
violation (here at column index 0, hence reported input row 2). -/
theorem claim_C7 :
    cellViolations ("id") 0 (Value.int BIGINT_MAX) = []
    ∧ cellViolations ("id") 0 (Value.int (BIGINT_MAX + 1)) =
        [{ row := 2, column := "id", value := Value.int (BIGINT_MAX + 1),
           error_type := ErrType.overflow }] := by
  constructor
  · rfl
  · rfl

/-- Claim C10: `validate` raises FileNotFoundError when the file is absent
and ValueError when reading fails; otherwise it returns `(ok, violations)`
where `ok = (len(violations) == 0)`, so ok is true iff the violation list
is empty. -/
theorem claim_C10 :
    (∀ cols : List String,
      validate ReadResult.missing cols = Except.error ValidateError.fileNotFound)
    ∧ (∀ (m : String) (cols : List String),
      validate (ReadResult.readError m) cols =
        Except.error (ValidateError.valueError ("Failed to read CSV: " ++ m)))
    ∧ (∀ (tbl : CsvTable) (cols : List String),
      validate (ReadResult.ok tbl) cols =
        Except.ok ((validateTable cols tbl).isEmpty, validateTable cols tbl))
    ∧ (∀ vs : List RangeViolation, vs.isEmpty = true ↔ vs = []) :=
  ⟨fun _ => rfl, fun _ _ => rfl, fun _ _ => rfl, fun _ => List.isEmpty_iff⟩

/-- Witness for C10 at a concrete table: one in-range cell, no violations,
ok is true. -/
theorem claim_C10_witness :
    validate (ReadResult.ok [("id", [Value.int 5])]) ["id"] = Except.ok (true, []) := by
  have h := claim_C10
  rw [h.2.2.1 [("id", [Value.int 5])] ["id"]]
  rfl

/-- Claim C3 (amended): which RI checks run.  The orders↔users check runs
iff both the users and orders tables are present; the two order-items
checks run iff orders, products and order_items are all present; and the
events↔users check — nested inside the order-items block in the source —
runs iff orders, products, order_items, users and events are ALL present,
not merely users and events. -/
theorem claim_C3 (inp : RIInput) :
    (riStage inp).ordersChecked = (inp.users.isSome && inp.orders.isSome)
    ∧ (riStage inp).orderItemsChecked =
        (inp.orders.isSome && inp.products.isSome && inp.order_items.isSome)
    ∧ (riStage inp).eventsChecked =
        (inp.orders.isSome && inp.products.isSome && inp.order_items.isSome
          && inp.users.isSome && inp.events.isSome) := by
  obtain ⟨us, os, ps, its, es⟩ := inp
  cases us <;> cases os <;> cases ps <;> cases its <;> cases es <;>
    exact ⟨rfl, rfl, rfl⟩

/-- Counterexample to claim C3 as stated: with users, orders, order_items
and events present but products absent, both sides of the events→users
relationship are present and yet the events RI check is not evaluated
(it sits inside the `if` that also requires the products file). -/
theorem claim_C3_counterexample :
    (let inp : RIInput := ⟨some [], some [], none, some [],
        some [⟨Value.int 1, Value.int 99, Value.int 1, Value.time 5, Value.str ("Rome")⟩]⟩
     inp.users.isSome = true ∧ inp.events.isSome = true ∧
       (riStage inp).eventsChecked = false) :=
  ⟨rfl, rfl, rfl⟩

/-- Witness for C3 applying the amended theorem at a concrete input where
every table is present: all three checks run. -/
theorem claim_C3_witness :
    (riStage ⟨some [], some [], some [], some [], some []⟩).eventsChecked = true := by
  have h := claim_C3 ⟨some [], some [], some [], some [], some []⟩
  rw [h.2.2]
  rfl

/-- Claim C2: row counts never increase through the pipeline: every
per-table cleaning function's output is no longer than its input, and each
RI resolution step retains no more rows than it was given. -/
theorem claim_C2 :
    (∀ df : List UserRow, (clean_users df).length ≤ df.length)
    ∧ (∀ df : List ProductRow, (clean_products df).length ≤ df.length)
    ∧ (∀ df : List OrderRow, (clean_orders df).length ≤ df.length)
    ∧ (∀ df : List OrderItemRow, (clean_order_items df).length ≤ df.length)
    ∧ (∀ df : List InventoryItemRow, (clean_inventory_items df).length ≤ df.length)
    ∧ (∀ df : List EventRow, (clean_events df).length ≤ df.length)
    ∧ (∀ df : List DistributionCenterRow, (clean_distribution_centers df).length ≤ df.length)
    ∧ (∀ (us : List UserRow) (os : List OrderRow),
        ((resolveOrders us os).1).length ≤ os.length)
    ∧ (∀ (os : List OrderRow) (ps : List ProductRow) (its : List OrderItemRow),
        ((resolveOrderItems os ps its).1).length ≤ its.length)
    ∧ (∀ (us : List UserRow) (es : List EventRow),
        ((resolveEvents us es).1).length ≤ es.length) := by
  refine ⟨?_, ?_, ?_, ?_, ?_, ?_, ?_, ?_, ?_, ?_⟩
  · intro df
    simp only [clean_users]
    repeat
      first
      | rw [List.length_map]
      | refine le_trans (List.length_filter_le _ _) ?_
    exact drop_duplicates_length_le _ _
  · intro df
    simp only [clean_products]
    repeat
      first
      | rw [List.length_map]
      | refine le_trans (List.length_filter_le _ _) ?_
    exact drop_duplicates_length_le _ _
  · intro df
    simp only [clean_orders]
    repeat
      first
      | rw [List.length_map]
      | refine le_trans (List.length_filter_le _ _) ?_
    exact drop_duplicates_length_le _ _
  · intro df
    simp only [clean_order_items]
    repeat
      first
      | rw [List.length_map]
      | refine le_trans (List.length_filter_le _ _) ?_
    exact drop_duplicates_length_le _ _
  · intro df
    simp only [clean_inventory_items]
    repeat
      first
      | rw [List.length_map]
      | refine le_trans (List.length_filter_le _ _) ?_
    exact drop_duplicates_length_le _ _
  · intro df
    simp only [clean_events]
    repeat
      first
      | rw [List.length_map]
      | refine le_trans (List.length_filter_le _ _) ?_
    exact drop_duplicates_length_le _ _
  · intro df
    simp only [clean_distribution_centers]
    repeat
      first
      | rw [List.length_map]
      | refine le_trans (List.length_filter_le _ _) ?_
    exact drop_duplicates_length_le _ _
  · intro us os
    simp only [resolveOrders]
    exact List.length_filter_le _ _
  · intro os ps its
    simp only [resolveOrderItems]
    exact List.length_filter_le _ _
  · intro us es
    simp only [resolveEvents]
    exact List.length_filter_le _ _

/-- Witness for C2 at a concrete input: cleaning a two-row users table
(one under-age row) yields at most two rows. -/
theorem claim_C2_witness :
    (clean_users [⟨Value.int 1, Value.str ("a@b.co"), Value.int 20, Value.str ("Rome"),
        Value.str ("Jo"), Value.str ("Doe"), Value.str ("Us"), Value.time 0⟩,
      ⟨Value.int 2, Value.str ("c@d.co"), Value.int 15, Value.str ("Rome"),
        Value.str ("Al"), Value.str ("Poe"), Value.str ("Us"), Value.time 0⟩]).length ≤ 2 :=
  claim_C2.1 _

theorem isna_iff (v : Value) : isna v = true ↔ v = Value.null := by
  cases v <;> simp [isna]

/-- Claim C4: an order_items row is retained by RI resolution iff its
order_id appears in the orders table it is checked against AND its
product_id appears in the products table; a row failing the order check is
recorded in `oi_missing_orders`, a row failing the product check in
`oi_missing_products`, and a row failing both is recorded in both (the two
violation files are computed independently, with no per-row dedup). -/
theorem claim_C4 (os : List OrderRow) (ps : List ProductRow) (its : List OrderItemRow)
    (r : OrderItemRow) :
    (r ∈ (resolveOrderItems os ps its).1 ↔
      r ∈ its ∧ oiOrderOk os r = true ∧ oiProductOk ps r = true)
    ∧ (r ∈ its → oiOrderOk os r = false →
        oiViolation r ∈ (resolveOrderItems os ps its).2.1)
    ∧ (r ∈ its → oiProductOk ps r = false →
        oiViolation r ∈ (resolveOrderItems os ps its).2.2)
    ∧ (oiOrderOk os r = true ↔ r.order_id ∈ os.map (fun o => o.order_id))
    ∧ (oiProductOk ps r = true ↔ r.product_id ∈ ps.map (fun p => p.id)) := by
  refine ⟨?_, ?_, ?_, ?_, ?_⟩
  · simp only [resolveOrderItems]
    rw [List.mem_filter]
    simp [and_assoc]
  · intro hmem hnot
    simp only [resolveOrderItems]
    exact List.mem_map_of_mem _ (List.mem_filter.mpr ⟨hmem, by simp [hnot]⟩)
  · intro hmem hnot
    simp only [resolveOrderItems]
    exact List.mem_map_of_mem _ (List.mem_filter.mpr ⟨hmem, by simp [hnot]⟩)
  · simp only [oiOrderOk]
    exact List.elem_iff
  · simp only [oiProductOk]
    exact List.elem_iff

/-- Witness for C4: against empty orders and products tables, a concrete
order_items row fails both checks, lands in both violation outputs, and is
not retained. -/
theorem claim_C4_witness :
    (let r0 : OrderItemRow := ⟨Value.int 1, Value.int 5, Value.int 6, Value.int 0,
        Value.str ("Complete"), Value.null, Value.null, Value.null, Value.null⟩
     oiViolation r0 ∈ (resolveOrderItems [] [] [r0]).2.1
     ∧ oiViolation r0 ∈ (resolveOrderItems [] [] [r0]).2.2
     ∧ r0 ∉ (resolveOrderItems [] [] [r0]).1) :=
  ⟨(claim_C4 [] [] _ _).2.1 (by decide) (by decide),
   (claim_C4 [] [] _ _).2.2.1 (by decide) (by decide),
   fun hm => absurd ((claim_C4 [] [] _ _).1.mp hm).2.1 (by decide)⟩

/-- Claim C5: an events row is retained by the nullable events→users check
iff its user_id is null or occurs among the users table's id column; every
rejected row is recorded in `orphan_events` with its id, user_id and
created_at. -/
theorem claim_C5 (us : List UserRow) (es : List EventRow) (r : EventRow) :
    (r ∈ (resolveEvents us es).1 ↔
      r ∈ es ∧ (r.user_id = Value.null ∨ r.user_id ∈ us.map (fun u => u.id)))
    ∧ (r ∈ es → eventUserOk us r = false →
        (⟨r.id, r.user_id, r.created_at⟩ : OrphanEvent) ∈ (resolveEvents us es).2) := by
  have hiff : eventUserOk us r = true ↔
      (r.user_id = Value.null ∨ r.user_id ∈ us.map (fun u => u.id)) := by
    simp only [eventUserOk, Bool.or_eq_true, validUserIds]
    constructor
    · rintro (h | h)
      · exact Or.inl ((isna_iff r.user_id).mp h)
      · exact Or.inr (List.mem_filter.mp (List.elem_iff.mp h)).1
    · rintro (h | h)
      · exact Or.inl ((isna_iff r.user_id).mpr h)
      · by_cases hn : r.user_id = Value.null
        · exact Or.inl ((isna_iff r.user_id).mpr hn)
        · refine Or.inr (List.elem_iff.mpr (List.mem_filter.mpr ⟨h, ?_⟩))
          simp only [Bool.not_eq_true']
          exact Bool.eq_false_iff.mpr (fun hna => hn ((isna_iff _).mp hna))
  constructor
  · simp only [resolveEvents]
    rw [List.mem_filter, hiff]
  · intro hmem hnot
    simp only [resolveEvents]
    exact List.mem_map_of_mem _ (List.mem_filter.mpr ⟨hmem, by simp [hnot]⟩)

/-- Witness for C5: against an empty users table, a concrete event with a
non-null unknown user_id is dropped and recorded, while an event with a
null user_id is retained. -/
theorem claim_C5_witness :
    (let e0 : EventRow := ⟨Value.int 1, Value.int 99, Value.int 1, Value.time 5,
        Value.str ("Rome")⟩
     let e1 : EventRow := ⟨Value.int 2, Value.null, Value.int 1, Value.time 6,
        Value.str ("Rome")⟩
     (⟨Value.int 1, Value.int 99, Value.time 5⟩ : OrphanEvent) ∈ (resolveEvents [] [e0, e1]).2
     ∧ e0 ∉ (resolveEvents [] [e0, e1]).1
     ∧ e1 ∈ (resolveEvents [] [e0, e1]).1) := by
  intro e0 e1
  refine ⟨?_, ?_, ?_⟩
  · exact (claim_C5 [] [e0, e1] e0).2 (by decide) (by decide)
  · intro hm
    rcases ((claim_C5 [] [e0, e1] e0).1.mp hm).2 with h | h
    · exact absurd h (by decide)
    · simp at h
  · exact (claim_C5 [] [e0, e1] e1).1.mpr ⟨by decide, Or.inl rfl⟩

/-- Claim C8: `clean_orders` drops a row whose shipped_at and created_at
are both non-null with shipped_at earlier than created_at, and likewise a
row whose delivered_at and shipped_at are both non-null with delivered_at
earlier than shipped_at; a row with null shipped_at always passes the first
date rule regardless of created_at.  Every surviving row satisfies both
date filters. -/
theorem claim_C8 :
    (∀ (df : List OrderRow) (r : OrderRow), r ∈ clean_orders df →
      shippedCreatedOk r = true ∧ deliveredShippedOk r = true)
    ∧ (∀ r : OrderRow,
        (∃ s c : ℤ, r.shipped_at = Value.time s ∧ r.created_at = Value.time c ∧ s < c) →
        shippedCreatedOk r = false)
    ∧ (∀ r : OrderRow, r.shipped_at = Value.null → shippedCreatedOk r = true)
    ∧ (∀ r : OrderRow,
        (∃ d s : ℤ, r.delivered_at = Value.time d ∧ r.shipped_at = Value.time s ∧ d < s) →
        deliveredShippedOk r = false) := by
  refine ⟨?_, ?_, ?_, ?_⟩
  · intro df r hr
    unfold clean_orders at hr
    obtain ⟨r1, hr1, rfl⟩ := List.mem_map.mp hr
    have h2 := List.mem_filter.mp hr1
    have h1 := List.mem_filter.mp h2.1
    exact ⟨h1.2, h2.2⟩
  · rintro r ⟨s, c, hs, hc, hlt⟩
    simp [shippedCreatedOk, hs, hc, isna, numGE]
    omega
  · intro r h
    simp [shippedCreatedOk, h, isna]
  · rintro r ⟨d, s, hd, hs, hlt⟩
    simp [deliveredShippedOk, hd, hs, isna, numGE]
    omega

/-- Witness for C8 at concrete rows: a fully-null-dated order survives and
satisfies both filters; shipped-before-created fails the first filter; null
shipped_at passes it; delivered-before-shipped fails the second. -/
theorem claim_C8_witness :
    (let g0 : OrderRow := ⟨Value.int 1, Value.int 7, Value.str ("Completed"),
        Value.null, Value.null, Value.null, Value.null⟩
     let b1 : OrderRow := ⟨Value.int 2, Value.int 7, Value.str ("Completed"),
        Value.time 2, Value.time 1, Value.null, Value.null⟩
     let n1 : OrderRow := ⟨Value.int 3, Value.int 7, Value.str ("Completed"),
        Value.time 5, Value.null, Value.null, Value.null⟩
     let b2 : OrderRow := ⟨Value.int 4, Value.int 7, Value.str ("Completed"),
        Value.null, Value.time 2, Value.time 1, Value.null⟩
     (shippedCreatedOk g0 = true ∧ deliveredShippedOk g0 = true)
     ∧ shippedCreatedOk b1 = false
     ∧ shippedCreatedOk n1 = true
     ∧ deliveredShippedOk b2 = false) := by
  intro g0 b1 n1 b2
  refine ⟨?_, ?_, ?_, ?_⟩
  · exact claim_C8.1 [g0] g0 (by decide)
  · exact claim_C8.2.1 b1 ⟨1, 2, rfl, rfl, by omega⟩
  · exact claim_C8.2.2.1 n1 rfl
  · exact claim_C8.2.2.2 b2 ⟨1, 2, rfl, rfl, by omega⟩

/-- Claim C1 (amended): `clean_users` deduplicates on email — not on the
primary key — keeping the first occurrence, and since no later stage
rewrites the email column, its final output has pairwise-distinct emails
(primary-key ids may repeat).  The other tables deduplicate on their
primary-key column, so the dedup stage's survivors have pairwise-distinct
raw key values (shown here for products; later numeric coercion of the id
column is what can make final ids collide). -/
theorem claim_C1 :
    (∀ df : List UserRow, (clean_users df).Pairwise (fun a b => a.email ≠ b.email))
    ∧ (∀ df : List ProductRow,
        (drop_duplicates (fun r : ProductRow => r.id) df).Pairwise (fun a b => a.id ≠ b.id)) := by
  constructor
  · intro df
    unfold clean_users
    refine List.pairwise_map.mpr ?_
    refine List.Pairwise.filter _ ?_
    refine List.pairwise_map.mpr ?_
    refine List.Pairwise.filter _ ?_
    refine List.pairwise_map.mpr ?_
    refine List.pairwise_map.mpr ?_
    refine List.Pairwise.filter _ ?_
    exact drop_duplicates_pairwise (fun r : UserRow => r.email) df
  · intro df
    exact drop_duplicates_pairwise (fun r : ProductRow => r.id) df

/-- Counterexample to claim C1 as stated: two users rows share the primary
key id 1 but have different valid emails; `clean_users` deduplicates on
email, so both survive and the final output has a duplicated primary key. -/
theorem claim_C1_counterexample :
    (let df : List UserRow := [⟨Value.int 1, Value.str ("a@b.co"), Value.int 20,
        Value.str ("Rome"), Value.str ("Jo"), Value.str ("Doe"), Value.str ("Us"), Value.time 0⟩,
      ⟨Value.int 1, Value.str ("c@d.co"), Value.int 30, Value.str ("Rome"),
        Value.str ("Al"), Value.str ("Poe"), Value.str ("Us"), Value.time 0⟩]
     (clean_users df).length = 2
     ∧ (clean_users df).map (fun r => r.id) = [Value.int 1, Value.int 1]
     ∧ ¬ (clean_users df).Pairwise (fun a b => a.id ≠ b.id)) := by
  intro df
  refine ⟨by decide, by decide, by decide⟩

/-- Claim C9 (amended): the text-normalization stage functions are
idempotent — Python `str.strip` and `str.title`, and their pandas `.str`
cell-level counterparts — but the whole-table cleaning functions are not
fixed points (see the counterexample). -/
theorem claim_C9 :
    (∀ s : String, pyStrip (pyStrip s) = pyStrip s)
    ∧ (∀ s : String, pyTitle (pyTitle s) = pyTitle s)
    ∧ (∀ v : Value, strStrip (strStrip v) = strStrip v)
    ∧ (∀ v : Value, strTitle (strTitle v) = strTitle v) := by
  refine ⟨pyStrip_pyStrip, pyTitle_pyTitle, ?_, ?_⟩
  · intro v
    cases v <;> simp [strStrip, pyStrip_pyStrip]
  · intro v
    cases v <;> simp [strTitle, pyTitle_pyTitle]

/-- Counterexample to claim C9 as stated: `clean_orders` is not idempotent.
Three rows with raw string order_ids "1", "+1", "x" (an object-dtype id
column) are pairwise distinct at dedup time, but numeric coercion maps the
first two to the same Int64 value 1, so re-running `clean_orders` on its
own output deduplicates further and the output changes (three rows become
two). -/
theorem claim_C9_counterexample :
    (let df : List OrderRow := [⟨Value.str ("1"), Value.int 7, Value.str ("Completed"),
        Value.null, Value.null, Value.null, Value.null⟩,
      ⟨Value.str ("+1"), Value.int 7, Value.str ("Completed"),
        Value.null, Value.null, Value.null, Value.null⟩,
      ⟨Value.str ("x"), Value.int 7, Value.str ("Completed"),
        Value.null, Value.null, Value.null, Value.null⟩]
     clean_orders (clean_orders df) ≠ clean_orders df) := by
  intro df
  decide

/-- Witness for C9: the normalization-stage idempotence applied at concrete
cells. -/
theorem claim_C9_witness :
    pyStrip (pyStrip ("  a b  ")) = pyStrip ("  a b  ")
    ∧ pyTitle (pyTitle ("jo anne")) = pyTitle ("jo anne")
    ∧ strStrip (strStrip (Value.int 3)) = strStrip (Value.int 3) :=
  ⟨claim_C9.1 _, claim_C9.2.1 _, claim_C9.2.2.1 _⟩

theorem float64OfRat_fracBound (q : ℚ) :
    (float64OfRat q).den ≠ 1 → |float64OfRat q| < 2 ^ 53 := by
  unfold float64OfRat
  split_ifs with h1 h2
  · intro h
    exact absurd h1 h
  · intro _
    exact h2
  · intro h
    exact absurd (Rat.den_intCast _) h

theorem strToNum_flt_bound {s : String} {q : ℚ}
    (h : strToNum s = some (NumVal.flt q)) : q.den ≠ 1 → |q| < 2 ^ 53 := by
  unfold strToNum at h
  dsimp only at h
  split at h
  · rcases hip : parseNatDigits ((match stripList s.data with
      | '-' :: r => ((true : Bool), r)
      | '+' :: r => ((false : Bool), r)
      | r => ((false : Bool), r)).2.takeWhile (fun c => !(c == '.'))) with _ | n <;>
      simp [hip] at h
  · split at h
    · simp at h
    · split at h
      · simp only [Option.some_inj, NumVal.flt.injEq] at h
        subst h
        exact float64OfRat_fracBound _
      · simp at h

theorem toNumeric_flt_bound {v : Value} {q : ℚ}
    (h : toNumeric v = some (NumVal.flt q)) : q.den ≠ 1 → |q| < 2 ^ 53 := by
  cases v with
  | null => simp [toNumeric] at h
  | int n => simp [toNumeric] at h
  | time t => simp [toNumeric] at h
  | rat q0 =>
    simp only [toNumeric, Option.some_inj, NumVal.flt.injEq] at h
    subst h
    exact float64OfRat_fracBound q0
  | str s => exact strToNum_flt_bound h

theorem numViolations_single (col : String) (idx : ℕ) (nv : NumVal)
    (hinv : ∀ q : ℚ, nv = NumVal.flt q → q.den ≠ 1 → |q| < 2 ^ 53) :
    (numViolations col idx nv).length ≤ 1
    ∧ ∀ w ∈ numViolations col idx nv, w.row = idx + 2 := by
  rcases nv with n | q
  · unfold numViolations
    by_cases h1 : (NumVal.int n).toQ < (BIGINT_MIN : ℚ)
    · rw [if_pos h1]
      refine ⟨by simp, ?_⟩
      intro w hw
      simp at hw
      rw [hw]
    · rw [if_neg h1]
      by_cases h2 : (BIGINT_MAX : ℚ) < (NumVal.int n).toQ
      · rw [if_pos h2]
        refine ⟨by simp, ?_⟩
        intro w hw
        simp at hw
        rw [hw]
      · rw [if_neg h2]
        exact ⟨by simp, by intro w hw; simp at hw⟩
  · unfold numViolations
    dsimp only
    by_cases hden : q.den ≠ 1
    · have habs := abs_lt.mp (hinv q rfl hden)
      have hmin : ¬ (NumVal.flt q).toQ < (BIGINT_MIN : ℚ) := by
        have hb : (BIGINT_MIN : ℚ) ≤ -(2 ^ 53) := by norm_num [BIGINT_MIN]
        simp only [NumVal.toQ]
        linarith [habs.1]
      have hmax : ¬ (BIGINT_MAX : ℚ) < (NumVal.flt q).toQ := by
        have hb : (2 ^ 53 : ℚ) ≤ (BIGINT_MAX : ℚ) := by norm_num [BIGINT_MAX]
        simp only [NumVal.toQ]
        linarith [habs.2]
      rw [if_neg hmin, if_neg hmax, if_pos hden]
      refine ⟨by simp, ?_⟩
      intro w hw
      simp at hw
      rw [hw]
    · rw [if_neg hden]
      by_cases h1 : (NumVal.flt q).toQ < (BIGINT_MIN : ℚ)
      · rw [if_pos h1]
        refine ⟨by simp, ?_⟩
        intro w hw
        simp at hw
        rw [hw]
      · rw [if_neg h1]
        by_cases h2 : (BIGINT_MAX : ℚ) < (NumVal.flt q).toQ
        · rw [if_pos h2]
          refine ⟨by simp, ?_⟩
          intro w hw
          simp at hw
          rw [hw]
        · rw [if_neg h2]
          exact ⟨by simp, by intro w hw; simp at hw⟩

/-- Claim C6: per validated cell the validator emits at most one Violation,
classifying the cell as exactly one of within-range (no violation),
NON_NUMERIC, UNDERFLOW, OVERFLOW, or PRECISION_LOSS: the range chain emits
at most one of the first four outcomes, and the separate fractional check
can only fire for a float64 with a fractional part, whose magnitude is
necessarily below 2^53 and hence strictly inside the bigint range, so it
never co-fires with a range violation.  Every emitted Violation carries the
1-based input-row number `idx + 2`, counting the CSV header as row 1. -/
theorem claim_C6 (col : String) (idx : ℕ) (v : Value) :
    (cellViolations col idx v).length ≤ 1
    ∧ ∀ w ∈ cellViolations col idx v, w.row = idx + 2 := by
  rcases hv : toNumeric v with _ | nv
  · rcases v with _ | s | n | q | t
    · refine ⟨by simp [cellViolations, toNumeric], ?_⟩
      intro w hw
      simp [cellViolations, toNumeric] at hw
    · simp only [toNumeric] at hv
      have hc : cellViolations col idx (Value.str s) =
          (if pyStrip s == "" then []
           else [{ row := idx + 2, column := col, value := Value.str s,
                   error_type := ErrType.nonNumeric }]) := by
        unfold cellViolations
        simp only [toNumeric]
        rw [hv]
      rw [hc]
      by_cases hb : pyStrip s == ""
      · rw [if_pos hb]
        exact ⟨by simp, by intro w hw; simp at hw⟩
      · rw [if_neg hb]
        refine ⟨by simp, ?_⟩
        intro w hw
        simp at hw
        rw [hw]
    · simp [toNumeric] at hv
    · simp [toNumeric] at hv
    · simp [toNumeric] at hv
  · have hc : cellViolations col idx v = numViolations col idx nv := by
      unfold cellViolations
      rw [hv]
    rw [hc]
    refine numViolations_single col idx nv ?_
    intro q hq hden
    rw [hq] at hv
    exact toNumeric_flt_bound hv hden

/-- Witness for C6: a non-numeric cell at column index 1 yields at most one
violation, and the NON_NUMERIC violation it does yield is reported at input
row 3 (index 1 plus the header offset). -/
theorem claim_C6_witness :
    (cellViolations ("id") 1 (Value.str ("abc"))).length ≤ 1
    ∧ ({ row := 3, column := "id", value := Value.str ("abc"),
         error_type := ErrType.nonNumeric } : RangeViolation).row = 1 + 2 := by
  constructor
  · exact (claim_C6 ("id") 1 (Value.str ("abc"))).1
  · exact (claim_C6 ("id") 1 (Value.str ("abc"))).2 _ (by decide)
